import Mathlib

/-!
Shallow embedding of the MultiAgent-Financial-System repository
(src/core/rag_pipeline.py, src/agents/orchestrator.py, src/agents/analyst.py,
src/agents/auditor.py, src/core/citations.py), together with theorems settling
the claims about the retrieval pipeline and the plan executor.

Modelling conventions:
* Python floats are modelled as rationals (ℚ); numeric string formatting
  (`"{:.2f}".format` and friends) is abstracted by external render functions.
* External collaborators (the OpenAI client, `json.loads`, the `re` regex
  engine, numpy's BM25 scoring, the vector store, the cross-encoder) are
  passed in as function parameters; everything written in the repository
  itself is translated directly.
* Python exceptions are modelled with `Except PyErr`.
-/

namespace MAFS

/-- A document as consumed by `_merge_results`: dense-leg results expose
`page_content`/`metadata`, sparse-leg results (`self.documents`) expose
`content`/`metadata`; both are content+metadata carriers. -/
structure Doc where
  content : String
  metadata : List (String × String)
deriving Repr, DecidableEq

/-- `RetrievalResult` dataclass from src/core/rag_pipeline.py. -/
structure RetrievalResult where
  content : String
  metadata : List (String × String)
  score : ℚ
  source : String
deriving Repr, DecidableEq

/-! ### `_merge_results` (src/core/rag_pipeline.py lines 139-188)

`results_dict` is a Python dict keyed by content string; we model it as an
insertion-ordered association list. -/

/-- Lookup in the insertion-ordered dict (`content in results_dict`). -/
def dictFind (d : List (String × RetrievalResult)) (c : String) : Option RetrievalResult :=
  match d with
  | [] => none
  | (k, v) :: rest => if k = c then some v else dictFind rest c

/-- In-place mutation of the entry at key `c` (`results_dict[content][...] = ...`). -/
def dictUpdate (d : List (String × RetrievalResult)) (c : String)
    (f : RetrievalResult → RetrievalResult) : List (String × RetrievalResult) :=
  match d with
  | [] => []
  | (k, v) :: rest => if k = c then (k, f v) :: rest else (k, v) :: dictUpdate rest c f

/-- Body of the dense-leg loop of `_merge_results` for one result at 1-based
`rank`: insert a fresh `source='dense'` entry when the content key is new, add
the RRF contribution `1/(60+rank)`, then (unconditionally, as in the source)
set `source = 'hybrid'`. -/
def mergeDenseStep (d : List (String × RetrievalResult)) (rank : Nat) (doc : Doc) :
    List (String × RetrievalResult) :=
  let d := if (dictFind d doc.content).isNone
    then d ++ [(doc.content, ⟨doc.content, doc.metadata, 0, "dense"⟩)]
    else d
  dictUpdate d doc.content
    (fun e => { e with score := e.score + 1 / (60 + (rank : ℚ)), source := "hybrid" })

/-- Body of the sparse-leg loop of `_merge_results` for one result at 1-based
`rank`: insert a fresh `source='sparse'` entry when the content key is new, add
the RRF contribution, then upgrade `source` to `'hybrid'` only when it
currently reads `'dense'`. -/
def mergeSparseStep (d : List (String × RetrievalResult)) (rank : Nat) (doc : Doc) :
    List (String × RetrievalResult) :=
  let d := if (dictFind d doc.content).isNone
    then d ++ [(doc.content, ⟨doc.content, doc.metadata, 0, "sparse"⟩)]
    else d
  dictUpdate d doc.content
    (fun e =>
      let e := { e with score := e.score + 1 / (60 + (rank : ℚ)) }
      if e.source = "dense" then { e with source := "hybrid" } else e)

/-- `for rank, result in enumerate(xs, 1)` folding a per-item step. -/
def enumFold {α β : Type} (f : β → Nat → α → β) : β → Nat → List α → β
  | acc, _, [] => acc
  | acc, r, x :: xs => enumFold f (f acc r x) (r + 1) xs

/-- Stable insertion for `sorted(..., key=lambda x: x.score, reverse=True)`:
an earlier element stays in front of any later element with a score that is
not larger. -/
def insertDesc (x : RetrievalResult) : List RetrievalResult → List RetrievalResult
  | [] => [x]
  | y :: ys => if y.score ≤ x.score then x :: y :: ys else y :: insertDesc x ys

/-- Python's stable `sorted` by descending `score`. -/
def sortByScoreDesc (l : List RetrievalResult) : List RetrievalResult :=
  l.foldr insertDesc []

/-- `AdvancedRAGPipeline._merge_results`: Reciprocal Rank Fusion of the dense
and sparse legs, followed by a descending sort on the fused score. -/
def merge_results (dense_results sparse_results : List Doc) : List RetrievalResult :=
  let d := enumFold mergeDenseStep [] 1 dense_results
  let d := enumFold mergeSparseStep d 1 sparse_results
  sortByScoreDesc (d.map Prod.snd)

/-! ### `hybrid_search` (lines 77-93) and `compare_across_years` (lines 105-115) -/

/-- Score of index `i` in the BM25 score array (total lookup; in the source the
index always lies in range because BM25 was built over `self.documents`). -/
def scoreAt (scores : List ℚ) (i : Nat) : ℚ :=
  (scores.get? i).getD 0

/-- Stable ascending insertion of index `i` by score, modelling `np.argsort`
(numpy's tie order is unspecified; only membership and length matter here). -/
def insertAscIdx (scores : List ℚ) (i : Nat) : List Nat → List Nat
  | [] => [i]
  | j :: js =>
      if scoreAt scores i ≤ scoreAt scores j then i :: j :: js
      else j :: insertAscIdx scores i js

/-- `np.argsort(bm25_scores)`: indices of the score array in ascending score
order. -/
def argsort (scores : List ℚ) : List Nat :=
  (List.range scores.length).foldr (insertAscIdx scores) []

/-- Python slice `a[-k:]`: the last `k` elements, or the whole list when
`k = 0` (since `a[-0:] = a[0:] = a`). -/
def pySliceLast {α : Type} (l : List α) (k : Nat) : List α :=
  if k = 0 then l else l.drop (l.length - k)

/-- The sparse leg of `hybrid_search`: `self.documents[i]` for
`i in np.argsort(bm25_scores)[-k:][::-1]`. -/
def sparseLeg (documents : List Doc) (scores : List ℚ) (k : Nat) : List Doc :=
  ((pySliceLast (argsort scores) k).reverse).map (fun i => (documents.get? i).getD ⟨"", []⟩)

/-- `AdvancedRAGPipeline.hybrid_search`. The dense leg
(`vector_store.similarity_search(query, k)`) is an external collaborator and is
passed in as `dense`; `scores` is the external `bm25.get_scores` output for the
tokenized query (one score per document). The sparse leg is skipped when the
document list is empty (then `self.bm25` is `None`). The fused list is returned
without any truncation to `k`. -/
def hybrid_search (dense : List Doc) (documents : List Doc) (scores : List ℚ) (k : Nat) :
    List RetrievalResult :=
  let sparse_results := if documents.isEmpty then [] else sparseLeg documents scores k
  merge_results dense sparse_results

/-- `AdvancedRAGPipeline.compare_across_years`: for each year, append the year
qualifier to the query and run `hybrid_search` with `k = 5`. `denseFor` and
`scoresFor` are the external vector store and BM25 scorer as functions of the
query text. The `results_by_year` dict is modelled as a list of key-value
pairs in year order. -/
def compare_across_years (denseFor : String → List Doc) (documents : List Doc)
    (scoresFor : String → List ℚ) (query : String) (years : List String) :
    List (String × List RetrievalResult) :=
  years.map (fun year =>
    let filtered_query := query ++ " (year: " ++ year ++ ")"
    (year, hybrid_search (denseFor filtered_query) documents (scoresFor filtered_query) 5))

/-! ### Lazy re-ranker state, `rerank` (lines 95-103), `retrieve` (lines 117-137) -/

/-- The pipeline state relevant to the lazy cross-encoder: `rerankerLoaded`
models `self._reranker is not None`. -/
structure PipelineState where
  rerankerLoaded : Bool
deriving Repr, DecidableEq

/-- The `reranker` property (lines 41-46): accessing it loads the model when it
is not yet loaded, and always leaves it loaded. -/
def rerankerProperty (s : PipelineState) : PipelineState :=
  if s.rerankerLoaded then s else { rerankerLoaded := true }

/-- `AdvancedRAGPipeline.rerank`: build (query, content) pairs, access
`self.reranker` (loading it on first use) and score the pairs with the external
cross-encoder `predict`, overwrite each result's score with its predicted score
(Python `zip` truncates at the shorter list, while `sorted` still sees the full
`results` list), and return the results sorted by descending score. -/
def rerank (predict : List (String × String) → List ℚ) (s : PipelineState)
    (query : String) (results : List RetrievalResult) :
    PipelineState × List RetrievalResult :=
  let pairs := results.map (fun r => (query, r.content))
  let s := rerankerProperty s
  let scores := predict pairs
  let updated := results.enum.map (fun p =>
    match scores.get? p.1 with
    | some sc => { p.2 with score := sc }
    | none => p.2)
  (s, sortByScoreDesc updated)

/-- `AdvancedRAGPipeline._deduplicate` (lines 190-206): keep the first result
for each distinct 200-character content prefix, preserving order. -/
def deduplicate (results : List RetrievalResult) : List RetrievalResult :=
  (results.foldl (fun (p : List String × List RetrievalResult) r =>
      let content_key := r.content.take 200
      if p.1.contains content_key then p
      else (content_key :: p.1, p.2 ++ [r])) ([], [])).2

/-- The per-sub-query body of the `retrieve` loop: hybrid search with `k = 20`,
re-rank only when the results are non-empty, keep the top 5. -/
def retrieveChunk (denseFor : String → List Doc) (documents : List Doc)
    (scoresFor : String → List ℚ) (predict : List (String × String) → List ℚ)
    (s : PipelineState) (sq : String) : PipelineState × List RetrievalResult :=
  let results := hybrid_search (denseFor sq) documents (scoresFor sq) 20
  let step := if results.isEmpty then (s, results) else rerank predict s sq results
  (step.1, step.2.take 5)

/-- `AdvancedRAGPipeline.retrieve`, parametrised by the sub-query list produced
by `decompose_query` (claims about `retrieve` quantify over arbitrary
decomposition outputs): concatenate each sub-query's top-5 chunk, deduplicate,
and return the top 10. -/
def retrieve (denseFor : String → List Doc) (documents : List Doc)
    (scoresFor : String → List ℚ) (predict : List (String × String) → List ℚ)
    (s : PipelineState) (sub_queries : List String) :
    PipelineState × List RetrievalResult :=
  let step := sub_queries.foldl (fun acc sq =>
      let c := retrieveChunk denseFor documents scoresFor predict acc.1 sq
      (c.1, acc.2 ++ c.2)) (s, ([] : List RetrievalResult))
  (step.1, (deduplicate step.2).take 10)

/-! ### `decompose_query` (lines 48-75) -/

/-- A parsed JSON value (`json.loads` output). -/
inductive JValue where
  | jnull
  | jbool (b : Bool)
  | jnum (q : ℚ)
  | jstr (s : String)
  | jarr (elems : List JValue)
  | jobj (fields : List (String × JValue))
deriving Repr

/-- `AdvancedRAGPipeline.decompose_query`. The language-model call is external
and modelled by `llmResponse` (`.error` models any raised exception, which the
outer `try` converts to the fallback); `jsonParse` is the external `json.loads`
(`none` models `JSONDecodeError`). A successfully parsed non-empty array is
returned as-is (`isinstance(sub_queries, list) and sub_queries`); every other
outcome falls back to the single-element list `[query]`. -/
def decompose_query (jsonParse : String → Option JValue)
    (llmResponse : Except Unit String) (query : String) : List JValue :=
  match llmResponse with
  | .error _ => [JValue.jstr query]
  | .ok content =>
      let result := content.trim
      match jsonParse result with
      | some (JValue.jarr elems) =>
          if elems.isEmpty then [JValue.jstr query] else elems
      | _ => [JValue.jstr query]

/-! ### `OrchestratorAgent.create_plan` (src/agents/orchestrator.py lines 39-94) -/

/-- Code-fence stripping applied when the planner response starts with three
backticks: drop the first line, and drop the last line when it is a bare fence
marker (`lines and lines[-1].strip() == fence`). -/
def stripCodeFence (content : String) : String :=
  let lines := content.splitOn "\n"
  let lines := lines.drop 1
  let lines :=
    match lines.getLast? with
    | some last => if last.trim = "```" then lines.dropLast else lines
    | none => lines
  String.intercalate "\n" lines

/-- `content = response.content.strip()` followed by the code-fence stripping
branch of `create_plan`. -/
def stripContent (raw : String) : String :=
  let content := raw.trim
  if content.startsWith "```" then stripCodeFence content else content

/-- The fixed fallback plan built in the `except JSONDecodeError` branch of
`create_plan`. -/
def fallback_plan (user_query : String) : JValue :=
  JValue.jobj [("steps", JValue.jarr [
    JValue.jobj [("agent", JValue.jstr "sec_researcher"),
      ("task", JValue.jstr ("Analyze 10-K filings for " ++ user_query)),
      ("dependencies", JValue.jarr [])],
    JValue.jobj [("agent", JValue.jstr "market_data"),
      ("task", JValue.jstr "Fetch current market data"),
      ("dependencies", JValue.jarr [])],
    JValue.jobj [("agent", JValue.jstr "analyst"),
      ("task", JValue.jstr "Synthesize analysis"),
      ("dependencies", JValue.jarr [JValue.jstr "sec_researcher", JValue.jstr "market_data"])],
    JValue.jobj [("agent", JValue.jstr "auditor"),
      ("task", JValue.jstr "Verify analysis"),
      ("dependencies", JValue.jarr [JValue.jstr "analyst"])]])]

/-- `OrchestratorAgent.create_plan`, parametrised by the raw planner response
(external language model) and by `json.loads`: strip code fences, parse, and on
parse failure return the fixed fallback plan. -/
def create_plan (jsonParse : String → Option JValue) (rawResponse : String)
    (user_query : String) : JValue :=
  let content := stripContent rawResponse
  match jsonParse content with
  | some plan => plan
  | none => fallback_plan user_query

/-! ### Python dictionaries, errors, citations (src/core/citations.py) -/

/-- Python exceptions that the modelled code can raise. -/
inductive PyErr where
  | keyError
  | typeError
  | attributeError
deriving Repr, DecidableEq

/-- `Citation` dataclass from src/core/citations.py (`sect` models the
`section` field; that word is reserved in Lean). -/
structure Citation where
  source_type : String
  ticker : String
  year : Option String
  sect : Option String
  url : String
  timestamp : Option String
deriving Repr, DecidableEq

/-- A value stored in one of the Python string-keyed dicts that flow between
agents: a number (Python int/float, modelled as ℚ), a string, or a `Citation`
object. -/
inductive MVal where
  | num (q : ℚ)
  | str (s : String)
  | cite (c : Citation)
deriving Repr, DecidableEq

/-- A Python dict with string keys, as an association list. -/
abbrev MDict := List (String × MVal)

/-- `d.get(k)`. -/
def mget (d : MDict) (k : String) : Option MVal :=
  (d.find? (fun p => p.1 == k)).map Prod.snd

/-- `d.get(k, default)`. -/
def mgetD (d : MDict) (k : String) (dflt : MVal) : MVal :=
  (mget d k).getD dflt

/-- Subscript access `d[k]`, raising `KeyError` when the key is absent. -/
def mitem (d : MDict) (k : String) : Except PyErr MVal :=
  match mget d k with
  | some v => Except.ok v
  | none => Except.error PyErr.keyError

/-- Python truthiness of a dict value: zero and the empty string are falsy,
objects are truthy. -/
def mvalTruthy : MVal → Bool
  | .num q => q != 0
  | .str s => !s.isEmpty
  | .cite _ => true

/-- Python truthiness of an optional value (`None` is falsy). -/
def pyTruthy : Option MVal → Bool
  | none => false
  | some v => mvalTruthy v

/-- Python multiplication of two dict values as used on market-data fields:
only number-by-number multiplication succeeds, everything else raises
`TypeError`. (Python's int-by-string repetition is not distinguished here:
market-data values are modelled as rationals.) -/
def mvalMul : MVal → MVal → Except PyErr ℚ
  | .num a, .num b => Except.ok (a * b)
  | _, _ => Except.error PyErr.typeError

/-- `Citation.to_markdown`; a `None` field renders as Python's `str(None)`. -/
def citationToMarkdown (c : Citation) : String :=
  let optStr : Option String → String := fun o => o.getD "None"
  if c.source_type = "10-K" then
    "[" ++ c.ticker ++ " 10-K " ++ optStr c.year ++ ", " ++ optStr c.sect ++
      "](" ++ c.url ++ ")"
  else
    "[Market Data: " ++ c.ticker ++ " at " ++ optStr c.timestamp ++ "]"

/-- `citation.to_markdown()` on a stored dict value: raises `AttributeError`
unless the value is a `Citation` object. -/
def mvalToMarkdown : MVal → Except PyErr String
  | .cite c => Except.ok (citationToMarkdown c)
  | _ => Except.error PyErr.attributeError

/-- `CitationTracker` from src/core/citations.py: the flat citation list and
the claim-to-citations dict (insertion-ordered). Stored values are the raw
objects handed to `add_citation`. -/
structure CitationTracker where
  citations : List MVal
  claim_to_citation : List (String × List MVal)
deriving Repr, DecidableEq

/-- `CitationTracker.add_citation`. -/
def add_citation (t : CitationTracker) (claim : String) (citation : MVal) :
    CitationTracker :=
  let m := if (t.claim_to_citation.find? (fun p => p.1 == claim)).isNone
    then t.claim_to_citation ++ [(claim, [])]
    else t.claim_to_citation
  { citations := t.citations ++ [citation],
    claim_to_citation := m.map (fun p =>
      if p.1 == claim then (p.1, p.2 ++ [citation]) else p) }

/-- The numbered, deduplicated listing loop of `format_for_report`
(`enumerate(self.citations, 1)`, skipping already-seen markdown strings). -/
def formatSources : Nat → List String → List String → String
  | _, _, [] => ""
  | i, seen, s :: rest =>
      if seen.contains s then formatSources (i + 1) seen rest
      else toString i ++ ". " ++ s ++ "\n" ++ formatSources (i + 1) (s :: seen) rest

/-- `CitationTracker.format_for_report`: empty string when no citations were
tracked, otherwise a Sources section; `to_markdown` can raise when a tracked
value is not a `Citation`. -/
def format_for_report (t : CitationTracker) : Except PyErr String :=
  if t.citations.isEmpty then Except.ok ""
  else do
    let strs ← t.citations.mapM mvalToMarkdown
    Except.ok ("\n\n## Sources\n\n" ++ formatSources 1 [] strs)

/-! ### `FinancialAnalystAgent` (src/agents/analyst.py)

Numeric string formatting (`"{:.2f}"`, `"{:,.0f}"`, `str(...)`) is Python
float formatting and is abstracted by the external render functions below; the
dict accesses and the failure behaviour are modelled exactly. -/

/-- External renderers for Python string formatting of dict values. -/
structure PyFmt where
  f2 : MVal → String
  comma0 : MVal → String
  plain : MVal → String

/-- `data.get('dividend_yield', 0) * 100`: multiplication by the int literal
100 (number values scale; Python would repeat a string value, which the
rational model does not distinguish). -/
def mvalScale100 : MVal → MVal
  | .num q => .num (q * 100)
  | v => v

/-- `FinancialAnalystAgent._generate_executive_summary`: only `.get` accesses
with defaults, never fails. -/
def generate_executive_summary (fmt : PyFmt) (_sec_data : Option MDict)
    (market_data : MDict) : String :=
  let ticker := mgetD market_data "ticker" (.str "N/A")
  let price := mgetD market_data "current_price" (.num 0)
  let market_cap := mgetD market_data "market_cap" (.num 0)
  "\n    " ++ fmt.plain ticker ++ " is currently trading at $" ++ fmt.f2 price ++
    " with a market capitalization of \n    $" ++ fmt.comma0 market_cap ++
    ". The company demonstrates solid market positioning with \n    " ++
    "ongoing strategic initiatives detailed in recent SEC filings.\n    "

/-- `FinancialAnalystAgent._summarize_business`: fixed template text. -/
def summarize_business (ticker : String) : String :=
  "\n    " ++ ticker ++ " operates in its core business segments as detailed in Item 1 of the 10-K. \n" ++
    "    The company's strategy focuses on innovation and market expansion.\n\n" ++
    "    *Note: Full business analysis requires indexed 10-K filings.*\n    "

/-- `FinancialAnalystAgent._format_market_metrics`: direct subscript accesses
on the market-data dict (each raising `KeyError` when absent), `.get` accesses
with defaults for the optional metrics, then a tracked citation
(`data['citation']`) appended to the citation tracker. Returns the updated
tracker and the markdown table. -/
def format_market_metrics (fmt : PyFmt) (tracker : CitationTracker) (data : MDict) :
    Except PyErr (CitationTracker × String) := do
  let price ← mitem data "current_price"
  let market_cap ← mitem data "market_cap"
  let shares ← mitem data "shares_outstanding"
  let wlow ← mitem data "52_week_low"
  let whigh ← mitem data "52_week_high"
  let pe := mgetD data "pe_ratio" (.str "N/A")
  let beta := mgetD data "beta" (.str "N/A")
  let dy := mgetD data "dividend_yield" (.num 0)
  let ts ← mitem data "timestamp"
  let table :=
    "\n| Metric | Value |\n|--------|-------|\n" ++
    "| **Current Price** | $" ++ fmt.f2 price ++ " |\n" ++
    "| **Market Cap** | $" ++ fmt.comma0 market_cap ++ " |\n" ++
    "| **Shares Outstanding** | " ++ fmt.comma0 shares ++ " |\n" ++
    "| **52-Week Range** | $" ++ fmt.f2 wlow ++ " - $" ++ fmt.f2 whigh ++ " |\n" ++
    "| **P/E Ratio** | " ++ fmt.plain pe ++ " |\n" ++
    "| **Beta** | " ++ fmt.plain beta ++ " |\n" ++
    "| **Dividend Yield** | " ++ fmt.f2 (mvalScale100 dy) ++ "% |\n\n" ++
    "*Source: Yahoo Finance, " ++ fmt.plain ts ++ "*\n"
  let citation ← mitem data "citation"
  let tracker := add_citation tracker "Current market metrics" citation
  Except.ok (tracker, table)

/-- `FinancialAnalystAgent._analyze_risks`: `sec_data.get('risks', {})` raises
`AttributeError` when `sec_data` is `None`; `_categorize_risks` ignores its
input and returns four fixed categories with empty risk lists, so the per-risk
inner loop contributes nothing. -/
def analyze_risks (sec_data : Option MDict) (_ticker : String) : Except PyErr String :=
  match sec_data with
  | none => Except.error PyErr.attributeError
  | some _ =>
      let risk_categories : List String :=
        ["Market & Competition", "Operational", "Regulatory", "Technology"]
      Except.ok (risk_categories.foldl
        (fun acc category => acc ++ "**" ++ category ++ "**\n\n" ++ "\n")
        "### Top Risk Factors (Last 5 Years)\n\n")

/-- `FinancialAnalystAgent._analyze_financials`: fixed template text. -/
def analyze_financials : String :=
  "\n    ### Revenue & Profitability\n    Analysis pending 10-K indexing.\n\n" ++
    "    ### Cash Flow\n    Analysis pending 10-K indexing.\n    "

/-- `FinancialAnalystAgent._assess_competition`: fixed template text. -/
def assess_competition (ticker : String) : String :=
  "\n    " ++ ticker ++ "'s competitive position is outlined in the 10-K Item 1 (Business) \n" ++
    "    and Item 1A (Risk Factors) sections.\n\n" ++
    "    *Full competitive analysis requires indexed filings.*\n    "

/-- `FinancialAnalystAgent._generate_investment_view`: returns the raw template
(the placeholders are never filled in). -/
def generate_investment_view : String :=
  "\n### Strengths\n{strengths}\n\n### Concerns\n{concerns}\n\n" ++
    "### Key Catalysts to Watch\n{catalysts}\n\n" ++
    "*Note: This is an analytical framework, not investment advice.*\n"

/-- `FinancialAnalystAgent.synthesize`: assembles the markdown report. The
pieces are evaluated in the f-string's left-to-right order, so
`market_data['timestamp']` is the first access — it raises `TypeError` when
`market_data` is `None` and `KeyError` when the key is missing — followed by
the section generators (of which `_format_market_metrics` subscripts the
market dict directly and `_analyze_risks` dereferences `sec_data`). Returns
the updated citation tracker and the report text. -/
def synthesize (fmt : PyFmt) (tracker : CitationTracker) (sec_data : Option MDict)
    (market_data : Option MDict) (ticker : String) :
    Except PyErr (CitationTracker × String) := do
  let md ← match market_data with
    | none => Except.error PyErr.typeError
    | some d => Except.ok d
  let ts ← mitem md "timestamp"
  let exec_summary := generate_executive_summary fmt sec_data md
  let step ← format_market_metrics fmt tracker md
  let tracker := step.1
  let business := summarize_business ticker
  let risks ← analyze_risks sec_data ticker
  let sources ← format_for_report tracker
  Except.ok (tracker,
    "# Financial Analysis: " ++ ticker ++ "\n*Generated: " ++ fmt.plain ts ++
    "*\n\n---\n\n## Executive Summary\n\n" ++ exec_summary ++
    "\n\n---\n\n## Current Market Metrics\n\n" ++ step.2 ++
    "\n\n---\n\n## Business Overview & Strategy\n\n" ++ business ++
    "\n\n---\n\n## Key Risk Factors\n\n" ++ risks ++
    "\n\n---\n\n## Financial Performance Trends\n\n" ++ analyze_financials ++
    "\n\n---\n\n## Competitive Position\n\n" ++ assess_competition ticker ++
    "\n\n---\n\n## Investment Considerations\n\n" ++ generate_investment_view ++
    "\n\n" ++ sources ++ "\n")

/-! ### `AuditorAgent` (src/agents/auditor.py)

The Python `re` regex engine is an external collaborator; its three uses are
passed in as `ReEngine` functions while all surrounding logic is modelled
directly. -/

/-- External regex primitives used by the auditor:
`findall_citations` is `re.findall(citation_pattern, text)`,
`search_citation` is `re.search(citation_pattern, text) is not None`,
`search_pat pat text` is `re.search(pat, text, re.IGNORECASE) is not None`. -/
structure ReEngine where
  findall_citations : String → List (String × String)
  search_citation : String → Bool
  search_pat : String → String → Bool

/-- The `factual_indicators` pattern list of `_is_factual_claim`. -/
def factual_indicators : List String :=
  ["\\d+%", "\\$[\\d,]+", "\\d{4}", "increased|decreased|grew|declined",
    "risk|revenue|profit|loss|debt"]

/-- `AuditorAgent._is_factual_claim`: true when any indicator pattern matches. -/
def is_factual_claim (re : ReEngine) (sentence : String) : Bool :=
  factual_indicators.any (fun pattern => re.search_pat pattern sentence)

/-- The result dict of `_verify_citations`. -/
structure CitationCheck where
  total_citations : Nat
  uncited_claims : List String
  all_valid : Bool
deriving Repr, DecidableEq

/-- `AuditorAgent._verify_citations`: count citation markers, then collect the
stripped text of every sentence (split on `.`) that is longer than 20
characters after stripping, carries no citation marker, and looks like a
factual claim. The `citations` argument is never read by the source. -/
def verify_citations (re : ReEngine) (report : String) (_citations : List MVal) :
    CitationCheck :=
  let found_citations := re.findall_citations report
  let sentences := report.splitOn "."
  let uncited_claims := (sentences.filter (fun sentence =>
      sentence.trim.length > 20 && !(re.search_citation sentence) &&
        is_factual_claim re sentence)).map String.trim
  { total_citations := found_citations.length,
    uncited_claims := uncited_claims,
    all_valid := uncited_claims.isEmpty }

/-- The result dict of `_verify_numbers`. -/
structure NumericCheck where
  calculations_valid : Bool
  market_cap_error_pct : Option ℚ
  calculated : Option ℚ
  reported : Option MVal
deriving Repr, DecidableEq

/-- `AuditorAgent._verify_numbers`: `calculated_cap = price * shares if price
and shares else None` with Python truthiness, then the 5%-tolerance comparison
guarded by `if calculated_cap and market_cap`. Multiplying or subtracting
non-number values raises `TypeError`. -/
def verify_numbers (market_data : MDict) : Except PyErr NumericCheck := do
  let price := mget market_data "current_price"
  let shares := mget market_data "shares_outstanding"
  let market_cap := mget market_data "market_cap"
  let calculated_cap ←
    if pyTruthy price && pyTruthy shares then
      match price, shares with
      | some p, some s => (mvalMul p s).map some
      | _, _ => Except.ok none
    else Except.ok (none : Option ℚ)
  match calculated_cap, market_cap with
  | some calcCap, some mc =>
      if calcCap != 0 && mvalTruthy mc then
        match mc with
        | .num mcq =>
            let error_pct := |calcCap - mcq| / mcq * 100
            Except.ok ⟨decide (error_pct < 5), some error_pct, calculated_cap, market_cap⟩
        | _ => Except.error PyErr.typeError
      else Except.ok ⟨false, none, calculated_cap, market_cap⟩
  | _, _ => Except.ok ⟨false, none, calculated_cap, market_cap⟩

/-- `AuditorAgent._verify_claims`: the placeholder claim check — always an
empty `unsupported_claims` list. -/
def verify_claims (_analyst_report : String) : List String := []

/-- The result dict of `verify`. -/
structure VerifyResult where
  citation_check : CitationCheck
  numeric_check : NumericCheck
  claim_check : List String
  overall_confidence : ℚ
deriving Repr, DecidableEq

/-- `AuditorAgent.verify`: run the three checks, count how many passed
(`all_valid`, `calculations_valid`, and `len(unsupported_claims) == 0`), and
set `overall_confidence = checks_passed / 3.0`. -/
def verify (re : ReEngine) (analyst_report : String) (citations : List MVal)
    (market_data : MDict) : Except PyErr VerifyResult := do
  let citation_check := verify_citations re analyst_report citations
  let numeric_check ← verify_numbers market_data
  let claim_check := verify_claims analyst_report
  let checks_passed : Nat :=
    (if citation_check.all_valid then 1 else 0) +
    (if numeric_check.calculations_valid then 1 else 0) +
    (if claim_check.length = 0 then 1 else 0)
  Except.ok ⟨citation_check, numeric_check, claim_check, (checks_passed : ℚ) / 3⟩

/-! ### `OrchestratorAgent.execute_plan` (src/agents/orchestrator.py lines 96-130) -/

/-- One step of `plan['steps']`. -/
structure PlanStep where
  agent : String
  task : String
  dependencies : List String
deriving Repr, DecidableEq

/-- The `results` dict of `execute_plan`. Only the four known agent names are
ever inserted as keys, so it is modelled as one optional slot per role:
`sec_researcher.run` returns a findings dict, `market_data.run` a market dict,
`analyst.synthesize` the report string, `auditor.verify` a verification
result. -/
structure ExecResults where
  sec_researcher : Option MDict
  market_data : Option MDict
  analyst : Option String
  auditor : Option VerifyResult
deriving Repr, DecidableEq

/-- The empty `results = {}` dict. -/
def emptyResults : ExecResults :=
  { sec_researcher := none, market_data := none, analyst := none, auditor := none }

/-- `dep in results` for a dependency role-id. -/
def hasKey (r : ExecResults) (dep : String) : Bool :=
  if dep == "sec_researcher" then r.sec_researcher.isSome
  else if dep == "market_data" then r.market_data.isSome
  else if dep == "analyst" then r.analyst.isSome
  else if dep == "auditor" then r.auditor.isSome
  else false

/-- External collaborators of `execute_plan`: the SEC research agent's `run`
(task, ticker), the market-data agent's `run` (ticker), plus the render and
regex externals used inside the in-repository analyst and auditor. -/
structure ExecEnv where
  secRun : String → String → MDict
  marketRun : String → MDict
  fmt : PyFmt
  re : ReEngine

/-- The body of the `for step in plan['steps']` loop: skip the step when some
dependency is not yet a key of `results` (`continue`, with no later retry);
otherwise dispatch on the agent name. The analyst receives
`results.get('sec_researcher')` and `results.get('market_data')` (possibly
`None`); the auditor receives `results['analyst']` — a direct subscript that
raises `KeyError` when absent — and `results.get('market_data', {})`. An
unknown agent name matches no branch and leaves `results` unchanged. The
analyst's citation tracker is threaded alongside the results. -/
def execStep (env : ExecEnv) (ticker : String) (st : ExecResults × CitationTracker)
    (step : PlanStep) : Except PyErr (ExecResults × CitationTracker) :=
  let results := st.1
  let tracker := st.2
  if !(step.dependencies.all (fun dep => hasKey results dep)) then Except.ok st
  else if step.agent == "sec_researcher" then
    Except.ok ({ results with sec_researcher := some (env.secRun step.task ticker) }, tracker)
  else if step.agent == "market_data" then
    Except.ok ({ results with market_data := some (env.marketRun ticker) }, tracker)
  else if step.agent == "analyst" then do
    let out ← synthesize env.fmt tracker results.sec_researcher results.market_data ticker
    Except.ok ({ results with analyst := some out.2 }, out.1)
  else if step.agent == "auditor" then do
    let report ← match results.analyst with
      | some r => Except.ok r
      | none => Except.error PyErr.keyError
    let v ← verify env.re report [] (results.market_data.getD [])
    Except.ok ({ results with auditor := some v }, tracker)
  else Except.ok st

/-- `OrchestratorAgent.execute_plan`: a single forward pass over the listed
steps (any raised exception propagates and aborts the pass). -/
def execute_plan (env : ExecEnv) (tracker : CitationTracker) (steps : List PlanStep)
    (ticker : String) : Except PyErr ExecResults := do
  let st ← steps.foldlM (execStep env ticker) (emptyResults, tracker)
  Except.ok st.1

/-- A market-data mapping whose values are all numbers, injected into the
dict-value type (used to state claims that quantify over numeric market
data). -/
def ratDict (md : List (String × ℚ)) : MDict :=
  md.map (fun p => (p.1, MVal.num p.2))

/-- Whether a parse outcome is a non-empty JSON array — the condition
`isinstance(sub_queries, list) and sub_queries` on a successful parse. -/
def isNonemptyArray : Option JValue → Bool
  | some (JValue.jarr (_ :: _)) => true
  | _ => false

/-! ## Supporting lemmas -/

theorem dictUpdate_length (d : List (String × RetrievalResult)) (c : String)
    (f : RetrievalResult → RetrievalResult) : (dictUpdate d c f).length = d.length := by
  induction d with
  | nil => rfl
  | cons p rest ih =>
      obtain ⟨k, v⟩ := p
      simp only [dictUpdate]
      split <;> simp [ih]

theorem mergeDenseStep_length (d : List (String × RetrievalResult)) (r : Nat) (doc : Doc) :
    (mergeDenseStep d r doc).length ≤ d.length + 1 := by
  unfold mergeDenseStep
  by_cases h : (dictFind d doc.content).isNone <;>
    simp [h, dictUpdate_length]

theorem mergeSparseStep_length (d : List (String × RetrievalResult)) (r : Nat) (doc : Doc) :
    (mergeSparseStep d r doc).length ≤ d.length + 1 := by
  unfold mergeSparseStep
  by_cases h : (dictFind d doc.content).isNone <;>
    simp [h, dictUpdate_length]

theorem enumFold_length_le (g : List (String × RetrievalResult) → Nat → Doc →
      List (String × RetrievalResult))
    (hg : ∀ d r x, (g d r x).length ≤ d.length + 1) (xs : List Doc) :
    ∀ (d : List (String × RetrievalResult)) (r : Nat),
      (enumFold g d r xs).length ≤ d.length + xs.length := by
  induction xs with
  | nil => intro d r; simp [enumFold]
  | cons x xs ih =>
      intro d r
      simp only [enumFold, List.length_cons]
      have h1 := ih (g d r x) (r + 1)
      have h2 := hg d r x
      omega

theorem insertDesc_length (x : RetrievalResult) (l : List RetrievalResult) :
    (insertDesc x l).length = l.length + 1 := by
  induction l with
  | nil => rfl
  | cons y ys ih =>
      simp only [insertDesc]
      split <;> simp [ih]

theorem sortByScoreDesc_length (l : List RetrievalResult) :
    (sortByScoreDesc l).length = l.length := by
  induction l with
  | nil => rfl
  | cons x xs ih =>
      simp only [sortByScoreDesc, List.foldr] at ih ⊢
      rw [insertDesc_length, ih, List.length_cons]

theorem merge_results_length (dense sparse : List Doc) :
    (merge_results dense sparse).length ≤ dense.length + sparse.length := by
  unfold merge_results
  rw [sortByScoreDesc_length, List.length_map]
  have h1 := enumFold_length_le mergeDenseStep mergeDenseStep_length dense [] 1
  have h2 := enumFold_length_le mergeSparseStep mergeSparseStep_length sparse
    (enumFold mergeDenseStep [] 1 dense) 1
  simp only [List.length_nil] at h1
  omega

theorem insertAscIdx_length (scores : List ℚ) (i : Nat) (l : List Nat) :
    (insertAscIdx scores i l).length = l.length + 1 := by
  induction l with
  | nil => rfl
  | cons j js ih =>
      simp only [insertAscIdx]
      split <;> simp [ih]

theorem argsort_length (scores : List ℚ) : (argsort scores).length = scores.length := by
  unfold argsort
  have : ∀ (l : List Nat) (acc : List Nat),
      (l.foldr (insertAscIdx scores) acc).length = l.length + acc.length := by
    intro l
    induction l with
    | nil => intro acc; simp
    | cons x xs ih =>
        intro acc
        simp only [List.foldr, insertAscIdx_length, ih, List.length_cons]
        omega
  simpa using this (List.range scores.length) []

theorem pySliceLast_length_le {α : Type} (l : List α) (k : Nat) (hk : k ≠ 0) :
    (pySliceLast l k).length ≤ k := by
  unfold pySliceLast
  rw [if_neg hk, List.length_drop]
  omega

theorem sparseLeg_length_le (documents : List Doc) (scores : List ℚ) (k : Nat)
    (hk : 1 ≤ k) : (sparseLeg documents scores k).length ≤ k := by
  unfold sparseLeg
  rw [List.length_map, List.length_reverse]
  exact pySliceLast_length_le _ _ (by omega)

theorem hybrid_search_length (dense documents : List Doc) (scores : List ℚ) (k : Nat)
    (hk : 1 ≤ k) (hd : dense.length ≤ k) :
    (hybrid_search dense documents scores k).length ≤ 2 * k := by
  unfold hybrid_search
  by_cases h : documents.isEmpty = true
  · rw [if_pos h]
    show (merge_results dense []).length ≤ 2 * k
    have := merge_results_length dense []
    simp only [List.length_nil] at this
    omega
  · rw [if_neg h]
    show (merge_results dense (sparseLeg documents scores k)).length ≤ 2 * k
    have h1 := merge_results_length dense (sparseLeg documents scores k)
    have h2 := sparseLeg_length_le documents scores k hk
    omega

/-! ## Claim theorems -/

/-- C2 counterexample: with `k = 1`, one dense result and one (distinct)
BM25-ranked document, `hybrid_search` returns 2 fused results, exceeding `k`. -/
theorem hybrid_search_exceeds_k :
    ¬ ((hybrid_search [⟨"a", []⟩] [⟨"b", []⟩] [1] 1).length ≤ 1) := by
  have e : hybrid_search [⟨"a", []⟩] [⟨"b", []⟩] [1] 1 =
      sortByScoreDesc ((enumFold mergeSparseStep
        (enumFold mergeDenseStep [] 1 [⟨"a", []⟩]) 1 [⟨"b", []⟩]).map Prod.snd) := rfl
  have h : (hybrid_search [⟨"a", []⟩] [⟨"b", []⟩] [1] 1).length = 2 := by
    rw [e, sortByScoreDesc_length]
    rfl
  omega

/-- C2 (amended): `hybrid_search` never truncates its fused output to `k`; it
returns at most `2*k` results — at most `k` from the dense leg (the external
vector-store contract) plus at most `k` from the sparse leg — and
`compare_across_years`, which calls it with `k = 5`, maps every year to at
most 10 results. -/
theorem hybrid_search_bound :
    (∀ (dense documents : List Doc) (scores : List ℚ) (k : Nat), 1 ≤ k →
      dense.length ≤ k → (hybrid_search dense documents scores k).length ≤ 2 * k)
    ∧ (∀ (denseFor : String → List Doc) (documents : List Doc)
        (scoresFor : String → List ℚ) (query : String) (years : List String),
        (∀ q, (denseFor q).length ≤ 5) →
        ∀ p ∈ compare_across_years denseFor documents scoresFor query years,
          p.2.length ≤ 10) := by
  constructor
  · intro dense documents scores k hk hd
    exact hybrid_search_length dense documents scores k hk hd
  · intro denseFor documents scoresFor query years hdense p hp
    simp only [compare_across_years, List.mem_map] at hp
    obtain ⟨year, _, rfl⟩ := hp
    dsimp only
    have := hybrid_search_length (denseFor (query ++ " (year: " ++ year ++ ")"))
      documents (scoresFor (query ++ " (year: " ++ year ++ ")")) 5
      (by omega) (hdense _)
    omega

/-- C2 witness: the amended bound applied at concrete inputs. -/
theorem hybrid_search_bound_witness :
    (hybrid_search [⟨"a", []⟩] [⟨"b", []⟩] [1] 1).length ≤ 2 * 1 ∧
    ∀ p ∈ compare_across_years (fun _ => []) [] (fun _ => []) "q" ["2020"],
      p.2.length ≤ 10 :=
  ⟨hybrid_search_bound.1 [⟨"a", []⟩] [⟨"b", []⟩] [1] 1 (by omega) (by simp),
   hybrid_search_bound.2 (fun _ => []) [] (fun _ => []) "q" ["2020"]
     (fun _ => Nat.zero_le 5)⟩

/-- C4: for every query environment and every non-empty decomposition output,
`retrieve` returns at most 10 results overall, and each sub-query's chunk
(re-ranked top 5) contributes at most 5 results to the concatenated list
before deduplication. -/
theorem retrieve_caps (denseFor : String → List Doc) (documents : List Doc)
    (scoresFor : String → List ℚ) (predict : List (String × String) → List ℚ)
    (s : PipelineState) (sub_queries : List String) (_hne : sub_queries ≠ []) :
    (retrieve denseFor documents scoresFor predict s sub_queries).2.length ≤ 10 ∧
    ∀ (s' : PipelineState) (sq : String),
      (retrieveChunk denseFor documents scoresFor predict s' sq).2.length ≤ 5 := by
  constructor
  · unfold retrieve
    simp only [List.length_take]
    omega
  · intro s' sq
    unfold retrieveChunk
    simp only [List.length_take]
    omega

/-- C4 witness: the caps hold at a concrete non-empty decomposition. -/
theorem retrieve_caps_witness :
    (retrieve (fun _ => []) [] (fun _ => []) (fun _ => []) ⟨false⟩ ["q"]).2.length ≤ 10 ∧
    ∀ (s' : PipelineState) (sq : String),
      (retrieveChunk (fun _ => []) [] (fun _ => []) (fun _ => []) s' sq).2.length ≤ 5 :=
  retrieve_caps (fun _ => []) [] (fun _ => []) (fun _ => []) ⟨false⟩ ["q"]
    (by decide)

/-- C1: evaluating `_merge_results` at a dense-only input. The item appears
only in the dense leg at rank 1, its fused score is the single contribution
`1/61`, but it is tagged `source='hybrid'` — the dense loop's unconditional
`results_dict[content]['source'] = 'hybrid'` overwrites the freshly assigned
`'dense'` tag, contradicting the specified tagging for one-leg items. -/
theorem merge_results_dense_only_eval :
    merge_results [⟨"x", []⟩] [] = [⟨"x", [], 1 / 61, "hybrid"⟩] := by
  have e : merge_results [⟨"x", []⟩] [] =
      [⟨"x", [], 0 + 1 / (60 + ((1 : Nat) : ℚ)), "hybrid"⟩] := rfl
  rw [e]
  norm_num

/-- C3: plan execution is a single forward pass in listed order. For the plan
with step A (`sec_researcher`, no dependencies) and step B (`market_data`,
depending on A): listed as [B, A], the run yields A's output and no entry for
B (B was skipped before A ran and is never retried); listed as [A, B], both
entries are populated. -/
theorem execute_plan_single_pass :
    execute_plan ⟨fun task ticker => [("t", MVal.str (task ++ ticker))],
        fun ticker => [("ticker", MVal.str ticker)],
        ⟨fun _ => "", fun _ => "", fun _ => ""⟩,
        ⟨fun _ => [], fun _ => false, fun _ _ => false⟩⟩ ⟨[], []⟩
      [⟨"market_data", "B", ["sec_researcher"]⟩, ⟨"sec_researcher", "A", []⟩] "T" =
      Except.ok ⟨some [("t", MVal.str "AT")], none, none, none⟩ ∧
    execute_plan ⟨fun task ticker => [("t", MVal.str (task ++ ticker))],
        fun ticker => [("ticker", MVal.str ticker)],
        ⟨fun _ => "", fun _ => "", fun _ => ""⟩,
        ⟨fun _ => [], fun _ => false, fun _ _ => false⟩⟩ ⟨[], []⟩
      [⟨"sec_researcher", "A", []⟩, ⟨"market_data", "B", ["sec_researcher"]⟩] "T" =
      Except.ok ⟨some [("t", MVal.str "AT")], some [("ticker", MVal.str "T")], none, none⟩ := by
  constructor <;> rfl

/-- C5 counterexample: when the language model returns a parseable four-element
JSON array, `decompose_query` returns all four elements — the claimed upper
bound of 3 does not hold. -/
theorem decompose_query_exceeds_three :
    ¬ ((decompose_query (fun _ => some (JValue.jarr
        [JValue.jstr "a", JValue.jstr "b", JValue.jstr "c", JValue.jstr "d"]))
        (Except.ok "resp") "q").length ≤ 3) := by
  have h : (decompose_query (fun _ => some (JValue.jarr
      [JValue.jstr "a", JValue.jstr "b", JValue.jstr "c", JValue.jstr "d"]))
      (Except.ok "resp") "q").length = 4 := rfl
  omega

/-- C5 (amended): for every parser behaviour, language-model outcome and query,
`decompose_query` returns at least one element; no upper bound is enforced — a
successfully parsed non-empty array is returned whole, whatever its length. -/
theorem decompose_query_at_least_one (jsonParse : String → Option JValue)
    (llmResponse : Except Unit String) (query : String) :
    1 ≤ (decompose_query jsonParse llmResponse query).length := by
  unfold decompose_query
  rcases llmResponse with e | content
  · simp
  · dsimp only
    rcases hj : jsonParse content.trim with _ | v
    · simp
    · cases v with
      | jarr elems =>
          cases elems with
          | nil => simp
          | cons x xs => simp
      | jnull => simp
      | jbool b => simp
      | jnum q => simp
      | jstr s => simp
      | jobj fields => simp

/-- C6: whenever the language-model call fails, or its (stripped) response does
not parse as JSON, or the parsed value is not a non-empty array,
`decompose_query` returns exactly `[query]`; no error surfaces (the function
is total). -/
theorem decompose_query_fallback (jsonParse : String → Option JValue)
    (llmResponse : Except Unit String) (query : String)
    (h : ∀ content, llmResponse = Except.ok content →
      isNonemptyArray (jsonParse content.trim) = false) :
    decompose_query jsonParse llmResponse query = [JValue.jstr query] := by
  rcases llmResponse with e | content
  · rfl
  · have hc := h content rfl
    unfold decompose_query
    dsimp only
    rcases hj : jsonParse content.trim with _ | v
    · rfl
    · rw [hj] at hc
      cases v with
      | jarr elems =>
          cases elems with
          | nil => rfl
          | cons x xs => simp [isNonemptyArray] at hc
      | jnull => rfl
      | jbool b => rfl
      | jnum q => rfl
      | jstr s => rfl
      | jobj fields => rfl

/-- C6 witness: a parser that always fails forces the `[query]` fallback. -/
theorem decompose_query_fallback_witness :
    decompose_query (fun _ => none) (Except.ok "hello") "q" = [JValue.jstr "q"] :=
  decompose_query_fallback (fun _ => none) (Except.ok "hello") "q"
    (fun _ _ => rfl)

/-- C7: whenever the planner's raw response fails JSON parsing after code-fence
stripping, `create_plan` returns the fixed fallback plan — `sec_researcher`
(the filing researcher) and `market_data` with no dependencies, `analyst`
depending on both, `auditor` depending on `analyst` — independent of the raw
response, and no error is raised (the function is total). -/
theorem create_plan_fallback (jsonParse : String → Option JValue)
    (rawResponse : String) (user_query : String)
    (h : jsonParse (stripContent rawResponse) = none) :
    create_plan jsonParse rawResponse user_query = fallback_plan user_query ∧
    fallback_plan user_query = JValue.jobj [("steps", JValue.jarr [
      JValue.jobj [("agent", JValue.jstr "sec_researcher"),
        ("task", JValue.jstr ("Analyze 10-K filings for " ++ user_query)),
        ("dependencies", JValue.jarr [])],
      JValue.jobj [("agent", JValue.jstr "market_data"),
        ("task", JValue.jstr "Fetch current market data"),
        ("dependencies", JValue.jarr [])],
      JValue.jobj [("agent", JValue.jstr "analyst"),
        ("task", JValue.jstr "Synthesize analysis"),
        ("dependencies", JValue.jarr [JValue.jstr "sec_researcher",
          JValue.jstr "market_data"])],
      JValue.jobj [("agent", JValue.jstr "auditor"),
        ("task", JValue.jstr "Verify analysis"),
        ("dependencies", JValue.jarr [JValue.jstr "analyst"])]])] := by
  refine ⟨?_, rfl⟩
  simp only [create_plan, h]

/-- C7 witness: a failing parse on a concrete malformed response yields the
fallback plan. -/
theorem create_plan_fallback_witness :
    create_plan (fun _ => none) "not json" "AAPL" = fallback_plan "AAPL" ∧
    fallback_plan "AAPL" = JValue.jobj [("steps", JValue.jarr [
      JValue.jobj [("agent", JValue.jstr "sec_researcher"),
        ("task", JValue.jstr ("Analyze 10-K filings for " ++ "AAPL")),
        ("dependencies", JValue.jarr [])],
      JValue.jobj [("agent", JValue.jstr "market_data"),
        ("task", JValue.jstr "Fetch current market data"),
        ("dependencies", JValue.jarr [])],
      JValue.jobj [("agent", JValue.jstr "analyst"),
        ("task", JValue.jstr "Synthesize analysis"),
        ("dependencies", JValue.jarr [JValue.jstr "sec_researcher",
          JValue.jstr "market_data"])],
      JValue.jobj [("agent", JValue.jstr "auditor"),
        ("task", JValue.jstr "Verify analysis"),
        ("dependencies", JValue.jarr [JValue.jstr "analyst"])]])] :=
  create_plan_fallback (fun _ => none) "not json" "AAPL" rfl

/-- C8: evaluating `execute_plan` where a step runs with a missing upstream
key. An `auditor` step with no declared dependencies runs against an empty
result map and `results['analyst']` raises `KeyError`; an `analyst` step with
no declared dependencies runs with no market-data entry and
`market_data['timestamp']` on `None` raises `TypeError`. Both abort execution
instead of producing a partial output. -/
theorem execute_plan_missing_upstream_aborts :
    execute_plan ⟨fun task ticker => [("t", MVal.str (task ++ ticker))],
        fun ticker => [("ticker", MVal.str ticker)],
        ⟨fun _ => "", fun _ => "", fun _ => ""⟩,
        ⟨fun _ => [], fun _ => false, fun _ _ => false⟩⟩ ⟨[], []⟩
      [⟨"auditor", "Verify analysis", []⟩] "T" = Except.error PyErr.keyError ∧
    execute_plan ⟨fun task ticker => [("t", MVal.str (task ++ ticker))],
        fun ticker => [("ticker", MVal.str ticker)],
        ⟨fun _ => "", fun _ => "", fun _ => ""⟩,
        ⟨fun _ => [], fun _ => false, fun _ _ => false⟩⟩ ⟨[], []⟩
      [⟨"analyst", "Synthesize analysis", []⟩] "T" = Except.error PyErr.typeError := by
  constructor <;> rfl

/-- C9 counterexample: calling `rerank` on the empty result list from an
uninitialized pipeline state does initialize the cross-encoder — the
`self.reranker` property is accessed before `predict`, with no empty-input
guard in `rerank` itself — refuting the claim that the state stays
uninitialized. -/
theorem rerank_initializes_on_empty :
    ¬ ((rerank (fun _ => []) ⟨false⟩ "q" []).1.rerankerLoaded = false) := by
  decide

/-- C9 (amended): `rerank` on an empty result sequence returns it unchanged,
but it does access (and thereby lazily initialize) the cross-encoder model;
the empty-input guard lives in `retrieve`, which skips `rerank` when a
sub-query's results are empty. -/
theorem rerank_empty_behavior (predict : List (String × String) → List ℚ)
    (s : PipelineState) (query : String) :
    (rerank predict s query []).2 = [] ∧
    (rerank predict s query []).1.rerankerLoaded = true := by
  refine ⟨rfl, ?_⟩
  by_cases hs : s.rerankerLoaded = true <;>
    simp [rerank, rerankerProperty, hs]

theorem mget_cons (key : String) (v : MVal) (rest : MDict) (k : String) :
    mget ((key, v) :: rest) k =
      if (key == k) = true then some v else mget rest k := by
  by_cases h : (key == k) = true
  · simp [mget, List.find?_cons_of_pos, h]
  · simp only [Bool.not_eq_true] at h
    simp [mget, List.find?_cons_of_neg, h]

theorem mget_ratDict (md : List (String × ℚ)) (k : String) :
    mget (ratDict md) k = none ∨ ∃ q, mget (ratDict md) k = some (MVal.num q) := by
  induction md with
  | nil => left; rfl
  | cons p rest ih =>
      rcases p with ⟨key, q⟩
      rcases ih with h | ⟨q', h⟩ <;>
        by_cases hk : (key == k) = true <;>
        simp only [ratDict, List.map, mget_cons, hk, if_true, if_false] at h ⊢
      · right; exact ⟨q, rfl⟩
      · left; exact h
      · right; exact ⟨q, rfl⟩
      · right; exact ⟨q', h⟩

theorem verify_numbers_ratDict (md : List (String × ℚ)) :
    ∃ nc, verify_numbers (ratDict md) = Except.ok nc := by
  rcases mget_ratDict md "current_price" with h1 | ⟨p, h1⟩ <;>
    rcases mget_ratDict md "shares_outstanding" with h2 | ⟨s, h2⟩ <;>
    rcases mget_ratDict md "market_cap" with h3 | ⟨m, h3⟩ <;>
    simp only [verify_numbers, h1, h2, h3, pyTruthy, mvalTruthy, mvalMul,
      Bool.false_and, Bool.and_false, if_false, Bool.and_self, Except.map,
      bind, Except.bind] <;>
    first
    | exact ⟨_, rfl⟩
    | (split <;> first | exact ⟨_, rfl⟩ | (split <;> exact ⟨_, rfl⟩))

/-- C10: for every regex-engine behaviour, report string, citation list and
numeric market-data mapping, `verify` succeeds and its `overall_confidence`
lies in the set `{1/3, 2/3, 1}` — it can never fall below `1/3`, because the
placeholder `_verify_claims` always reports zero unsupported claims, so the
claim check always counts as passed. -/
theorem verify_confidence (re : ReEngine) (report : String)
    (citations : List MVal) (md : List (String × ℚ)) :
    ∃ v, verify re report citations (ratDict md) = Except.ok v ∧
      (v.overall_confidence = 1 / 3 ∨ v.overall_confidence = 2 / 3 ∨
        v.overall_confidence = 1) := by
  obtain ⟨nc, hnc⟩ := verify_numbers_ratDict md
  have hv : verify re report citations (ratDict md) =
      Except.ok ⟨verify_citations re report citations, nc, verify_claims report,
        ((((if (verify_citations re report citations).all_valid then 1 else 0) +
          (if nc.calculations_valid then 1 else 0) +
          (if (verify_claims report).length = 0 then 1 else 0) : Nat)) : ℚ) / 3⟩ := by
    simp only [verify, hnc, bind, Except.bind]
  refine ⟨_, hv, ?_⟩
  cases hb1 : (verify_citations re report citations).all_valid <;>
    cases hb2 : nc.calculations_valid <;>
    simp [verify_claims, hb1, hb2]

end MAFS

